import Mathlib

/-!
Verification of the recruitment-crew notebook (Day I / crew_ollama_deepseek).

The notebook defines a six-record in-memory candidate store, collects four
operator inputs, and runs four tasks (profile, match, offer, send) in strict
sequence, each task receiving the outputs of its declared context tasks.
External LLM calls are modelled as an abstract oracle. The candidate matching
policy is delegated to free-text LLM reasoning in the source, so it is
modelled here from the spec (section 4.2) where noted.
-/

namespace Recruitment

/-! ## Data model -/

structure CandidateRecord where
  id : String
  full_name : String
  email : String
  role : String
  experience_years : Nat
  budget : Nat
  stack : List String
deriving DecidableEq, Repr

/-- The six-record candidate store, exactly as hardcoded in the notebook. -/
def candidate_db : List CandidateRecord :=
  [ { id := "c-101", full_name := "Alex Ivanov", email := "alex@devmail.com",
      role := "Full-Stack Developer", experience_years := 5, budget := 4000,
      stack := ["React", "Node.js", "PostgreSQL", "Docker"] },
    { id := "c-202", full_name := "Maria Petrova", email := "maria@devmail.com",
      role := "Backend Developer", experience_years := 4, budget := 3500,
      stack := ["Node.js", "MongoDB", "Docker", "AWS"] },
    { id := "c-303", full_name := "Oleg Smirnov", email := "oleg.smirnov@devmail.com",
      role := "DevOps Engineer", experience_years := 6, budget := 4500,
      stack := ["AWS", "Docker", "Kubernetes", "Terraform", "Ansible"] },
    { id := "c-404", full_name := "Elena Kozlova", email := "elena.kozlova@devmail.com",
      role := "Frontend Developer", experience_years := 3, budget := 3200,
      stack := ["Vue.js", "TypeScript", "TailwindCSS", "Vite"] },
    { id := "c-505", full_name := "Dmitry Lebedev", email := "dmitry.lebedev@devmail.com",
      role := "Data Engineer", experience_years := 5, budget := 4800,
      stack := ["Python", "Spark", "Airflow", "Kafka", "Redshift"] },
    { id := "c-606", full_name := "Anna Baranov", email := "anna.baranov@devmail.com",
      role := "QA Automation Engineer", experience_years := 4, budget := 3300,
      stack := ["Java", "Selenium", "Cypress", "JUnit", "Docker"] } ]

structure CandidateInput where
  role : String
  experience_years : Int
  budget : Int
  stack : List String
deriving DecidableEq, Repr

/-! ## Operator input collection (notebook cell with the four input() calls)

Python strings are modelled as lists of characters so the split and strip
operations can be reasoned about by structural induction. -/

/-- Python str.strip(): drop whitespace from both ends. -/
def pyStrip (s : List Char) : List Char :=
  ((s.dropWhile Char.isWhitespace).reverse.dropWhile Char.isWhitespace).reverse

/-- Python str.split(",") with an explicit separator: splitting the empty
string gives one empty field, and every comma starts a new field. -/
def pySplitComma : List Char → List (List Char)
  | [] => [[]]
  | c :: cs =>
    if c = ',' then [] :: pySplitComma cs
    else
      match pySplitComma cs with
      | [] => [[c]]
      | w :: ws => (c :: w) :: ws

def digitsToNat (ds : List Char) : Nat :=
  ds.foldl (fun n c => 10 * n + (c.toNat - 48)) 0

/-- Python int(str) on a stripped string: an optional sign followed by at
least one digit; anything else raises ValueError (here: none). -/
def pyIntCore : List Char → Option Int
  | [] => none
  | '+' :: ds =>
    if ds.length ≠ 0 ∧ ds.all Char.isDigit then some (digitsToNat ds : Int) else none
  | '-' :: ds =>
    if ds.length ≠ 0 ∧ ds.all Char.isDigit then some (-(digitsToNat ds : Int)) else none
  | ds =>
    if ds.all Char.isDigit then some (digitsToNat ds : Int) else none

/-- Python int(str): leading and trailing whitespace is ignored. -/
def pyInt (s : List Char) : Option Int :=
  pyIntCore (pyStrip s)

/-- The notebook splits the raw stack input on commas and strips each piece. -/
def stackOf (stack_inp_raw : List Char) : List String :=
  (pySplitComma stack_inp_raw).map (fun w => String.mk (pyStrip w))

inductive RunError where
  /-- Python ValueError from an int() conversion, carrying the offending text. -/
  | valueError : List Char → RunError
  /-- Python NameError: the named variable is not defined. -/
  | nameError : String → RunError
  /-- A failure surfaced by an external reasoning call during a step. -/
  | stepError : String → RunError
deriving DecidableEq, Repr

/-- The four raw operator-supplied strings. -/
structure OperatorInput where
  role_inp : List Char
  exp_inp : List Char
  budget_inp : List Char
  stack_inp_raw : List Char

/-- The candidate_input dict construction: int(exp_inp) is evaluated first,
then int(budget_inp); either conversion failing aborts input collection. -/
def candidate_input (op : OperatorInput) : Except RunError CandidateInput :=
  match pyInt op.exp_inp with
  | none => .error (.valueError op.exp_inp)
  | some e =>
    match pyInt op.budget_inp with
    | none => .error (.valueError op.budget_inp)
    | some b =>
      .ok { role := String.mk (pyStrip op.role_inp)
          , experience_years := e
          , budget := b
          , stack := stackOf op.stack_inp_raw }

/-! ## Candidate Matching Rule

The source delegates the matching policy to free-text LLM reasoning inside
the task_match description, so no executable matching code exists under src.
The rule is therefore modelled from the spec. -/

/-- Both hard constraints of the Matching Rule: the candidate's requested
budget is at most the operator's stated budget, and the candidate's
experience years are at least the operator's required experience. -/
def qualifies (inp : CandidateInput) (c : CandidateRecord) : Bool :=
  decide ((c.budget : Int) ≤ inp.budget) &&
  decide (inp.experience_years ≤ (c.experience_years : Int))

/-- Number of candidate stack entries that also occur in the input stack. -/
def stackOverlap (inp : CandidateInput) (c : CandidateRecord) : Nat :=
  (c.stack.filter (fun s => inp.stack.contains s)).length

/-- Primary criterion score: 1 when the role titles are equal. -/
def roleScore (inp : CandidateInput) (c : CandidateRecord) : Nat :=
  if c.role = inp.role then 1 else 0

/-- Strictly better under the spec ordering: role equality first, then
higher stack overlap, then lower requested budget. -/
def better (inp : CandidateInput) (a b : CandidateRecord) : Bool :=
  decide (roleScore inp b < roleScore inp a) ||
  (decide (roleScore inp a = roleScore inp b) &&
    (decide (stackOverlap inp b < stackOverlap inp a) ||
     (decide (stackOverlap inp a = stackOverlap inp b) &&
      decide (a.budget < b.budget))))

/-- Left fold keeping the best record seen so far; earlier records win ties. -/
def pickBest (inp : CandidateInput) (c : CandidateRecord)
    (cs : List CandidateRecord) : CandidateRecord :=
  cs.foldl (fun best x => if better inp x best then x else best) c

def selectBest (inp : CandidateInput) :
    List CandidateRecord → Option CandidateRecord
  | [] => none
  | c :: cs => some (pickBest inp c cs)

/-- The human-readable justification attached to the selected record. -/
def match_reason (inp : CandidateInput) (c : CandidateRecord) : String :=
  "matched role " ++ c.role ++ " against " ++ inp.role ++
  " with budget " ++ toString c.budget ++ " within " ++ toString inp.budget ++
  " and experience " ++ toString c.experience_years ++
  " meeting " ++ toString inp.experience_years

/-- Modelled from the spec: the Candidate Matching Rule of section 4.2.
The source (task_match) leaves this policy to free-text LLM reasoning, so the
executable rule is missing from src; following the spec, records violating a
hard constraint are discarded, and among qualifying records the best is
chosen by role equality, then stack overlap count, then lower budget. The
result is the selected record plus a justification string; when no record
satisfies both hard constraints there is no qualifying record to return. -/
def matchRule (store : List CandidateRecord) (inp : CandidateInput) :
    Option (CandidateRecord × String) :=
  match selectBest inp (store.filter (qualifies inp)) with
  | none => none
  | some c => some (c, match_reason inp c)

/-! ## Pipeline Runner (tasks, Crew, Process.sequential)

A task is named, lists the names of the tasks whose outputs it receives as
context, and may receive the candidate store as input_data. The external
reasoning call is an abstract oracle from the task, its assembled context
and its optional input_data to a returned text or a failure. -/

structure TaskDef where
  name : String
  description : String
  context : List String
  has_input_data : Bool
deriving DecidableEq, Repr

def task_profile : TaskDef :=
  { name := "profile"
  , description := "Using the input {candidate_input}, create a JSON profile of the candidate with the fields id, role, experience_years, budget, stack."
  , context := []
  , has_input_data := false }

def task_match : TaskDef :=
  { name := "match"
  , description := "Based on candidate_profile, find in candidate_db the candidate that matches as much as possible. Return JSON matched_candidate plus match_reason field."
  , context := ["profile"]
  , has_input_data := true }

def task_offer : TaskDef :=
  { name := "offer"
  , description := "Write an e-mail to the actual addressee matched_candidate. Markdown format, 200-250 words."
  , context := ["profile", "match"]
  , has_input_data := false }

def task_send : TaskDef :=
  { name := "send"
  , description := "Simulate sending the offer_email to email matched_candidate. Return the line Offer sent to {full_name} with status success."
  , context := ["offer", "match"]
  , has_input_data := false }

/-- The tasks handed to the Crew, in declaration order. -/
def crew_tasks : List TaskDef := [task_profile, task_match, task_offer, task_send]

/-- One produced step record: the step identifier, its returned text, and
the context it saw (dependency name paired with that dependency's output). -/
structure StepResult where
  step : String
  output : String
  context : List (String × String)
deriving DecidableEq, Repr

/-- The notebook state visible to the run; the candidate store is its only
data. -/
structure NotebookState where
  candidate_db : List CandidateRecord
deriving DecidableEq, Repr

/-- The external reasoning call: task, assembled context, optional read-only
input_data; returns the text or fails. -/
def Oracle : Type :=
  TaskDef → List (String × String) → Option (List CandidateRecord) → Except String String

/-- Output of a previously completed task, looked up by task name. -/
def lookupOutput (acc : List (String × String)) (n : String) : String :=
  match acc.find? (fun p => p.1 = n) with
  | some p => p.2
  | none => ""

/-- The context a task receives: its declared dependencies paired with their
recorded outputs. -/
def taskContext (t : TaskDef) (acc : List (String × String)) :
    List (String × String) :=
  t.context.map (fun n => (n, lookupOutput acc n))

/-- The auxiliary dataset passed to a task: the candidate store for the one
task declaring input_data, nothing for the others. -/
def taskData (t : TaskDef) (st : NotebookState) : Option (List CandidateRecord) :=
  if t.has_input_data then some st.candidate_db else none

/-- Sequential execution of the remaining tasks. Returns the produced step
results (or the first error, uncaught), the trace of step names whose
external call was attempted, and the final notebook state. -/
def runTasks (oracle : Oracle) :
    List TaskDef → List (String × String) → NotebookState →
    Except RunError (List StepResult) × List String × NotebookState
  | [], _, st => (.ok [], [], st)
  | t :: ts, acc, st =>
    let ctx := taskContext t acc
    match oracle t ctx (taskData t st) with
    | .error e => (.error (.stepError e), [t.name], st)
    | .ok out =>
      let rest := runTasks oracle ts (acc ++ [(t.name, out)]) st
      (rest.1.map (fun rs => { step := t.name, output := out, context := ctx } :: rs),
       t.name :: rest.2.1, rest.2.2)

/-- crew.kickoff() over the four declared tasks. -/
def runCrew (oracle : Oracle) (st : NotebookState) :
    Except RunError (List StepResult) × List String × NotebookState :=
  runTasks oracle crew_tasks [] st

/-- The whole run: collect and convert the operator input, then run the
crew. An input-conversion failure aborts before any task call is attempted
(empty trace). -/
def run_notebook (oracle : Oracle) (op : OperatorInput) :
    Except RunError (List StepResult) × List String :=
  match candidate_input op with
  | .error e => (.error e, [])
  | .ok _ =>
    let r := runCrew oracle { candidate_db := candidate_db }
    (r.1, r.2.1)

/-! ## Result Presenter (the final display cell)

The display cell reads the module-level variable final_status and renders
its raw text as markdown. Python name lookup is modelled as a finite
environment from variable names to their textual values. -/

/-- Every module-level name bound by the notebook cells before the display
cell evaluates final_status.raw: imports, the server thread, the llm, the
four agents, the candidate store, the four raw inputs, the converted input,
the four tasks, main and its result, and the display imports. -/
def notebook_globals : List String :=
  [ "subprocess", "requests", "json", "threading", "pprint"
  , "run_ollama", "thread", "warnings"
  , "os", "getpass", "Agent", "Task", "Crew", "Process", "dedent", "ChatOllama"
  , "LLM", "llm", "agent_1", "agent_2", "agent_3", "agent_4", "candidate_db"
  , "role_inp", "exp_inp", "budget_inp", "stack_inp_raw", "candidate_input"
  , "task_profile", "task_match", "task_offer", "task_send"
  , "main", "result", "display", "Markdown" ]

/-- An environment holding exactly the given names, each mapped to its
textual value. -/
def envOf (names : List String) (vals : String → String) : String → Option String :=
  fun n => if names.contains n then some (vals n) else none

/-- The display cell: look up final_status and render its text unchanged;
an unbound name is a NameError. -/
def display_cell (env : String → Option String) : Except RunError String :=
  match env "final_status" with
  | none => .error (.nameError "final_status")
  | some v => .ok v

/-! ## Helper lemmas -/

/-- The record kept by the fold is one of the records it saw. -/
theorem pickBest_mem (inp : CandidateInput) :
    ∀ (cs : List CandidateRecord) (c : CandidateRecord), pickBest inp c cs ∈ c :: cs
  | [], c => by simp [pickBest]
  | x :: cs, c => by
    have h := pickBest_mem inp cs (if better inp x c then x else c)
    simp only [pickBest, List.foldl_cons] at h ⊢
    rcases List.mem_cons.mp h with h1 | h2
    · rw [h1]
      split
      · exact List.mem_cons_of_mem _ (List.mem_cons_self _ _)
      · exact List.mem_cons_self _ _
    · exact List.mem_cons_of_mem _ (List.mem_cons_of_mem _ h2)

/-- Splitting on commas always yields at least one field. -/
theorem pySplitComma_ne_nil : ∀ s : List Char, pySplitComma s ≠ []
  | [] => by simp [pySplitComma]
  | c :: cs => by
    unfold pySplitComma
    by_cases h : c = ','
    · simp [h]
    · rw [if_neg h]
      cases hr : pySplitComma cs <;> simp

/-- Splitting on commas yields one field more than the number of commas. -/
theorem pySplitComma_length : ∀ s : List Char,
    (pySplitComma s).length = s.count ',' + 1
  | [] => by simp [pySplitComma]
  | c :: cs => by
    have ih := pySplitComma_length cs
    unfold pySplitComma
    by_cases h : c = ','
    · rw [if_pos h]
      simp [List.count_cons, h, ih]
    · rw [if_neg h]
      cases hr : pySplitComma cs with
      | nil => exact absurd hr (pySplitComma_ne_nil cs)
      | cons w ws =>
        rw [hr] at ih
        simp only [List.length_cons] at ih ⊢
        simp [List.count_cons, h, ih]

/-- Sequential execution never changes the notebook state. -/
theorem runTasks_state_eq (oracle : Oracle) :
    ∀ (ts : List TaskDef) (acc : List (String × String)) (st : NotebookState),
      (runTasks oracle ts acc st).2.2 = st
  | [], _, _ => rfl
  | t :: ts, acc, st => by
    unfold runTasks
    cases h : oracle t (taskContext t acc) (taskData t st) with
    | error e => simp [h]
    | ok out => simp [h, runTasks_state_eq oracle ts (acc ++ [(t.name, out)]) st]

/-! ## Claims about the Matching Rule -/

/-- Claim C1: for every CandidateInput for which at least one record of the
six-record candidate store satisfies both hard constraints, the Matching
Rule returns exactly one record, and the returned record satisfies
budget at most the input budget and experience at least the required
experience. -/
theorem matching_rule_selects_qualifying (inp : CandidateInput)
    (h : ∃ c ∈ candidate_db, qualifies inp c = true) :
    ∃ r reason, matchRule candidate_db inp = some (r, reason) ∧
      qualifies inp r = true := by
  obtain ⟨c, hc, hq⟩ := h
  have hmem : c ∈ candidate_db.filter (qualifies inp) :=
    List.mem_filter.mpr ⟨hc, hq⟩
  obtain ⟨d, ds, hl⟩ := List.exists_cons_of_ne_nil (List.ne_nil_of_mem hmem)
  refine ⟨pickBest inp d ds, match_reason inp (pickBest inp d ds), ?_, ?_⟩
  · unfold matchRule
    rw [hl]
    rfl
  · have h1 : pickBest inp d ds ∈ d :: ds := pickBest_mem inp ds d
    have h2 : pickBest inp d ds ∈ candidate_db.filter (qualifies inp) := by
      rw [hl]; exact h1
    exact (List.mem_filter.mp h2).2

theorem matching_rule_selects_qualifying_witness :
    ∃ r reason,
      matchRule candidate_db
        { role := "Backend Developer", experience_years := 4, budget := 4000
        , stack := ["Node.js"] } = some (r, reason) ∧
      qualifies
        { role := "Backend Developer", experience_years := 4, budget := 4000
        , stack := ["Node.js"] } r = true :=
  matching_rule_selects_qualifying _ (by decide)

/-- Claim C2: on the input with role Backend Developer, 4 years of
experience, budget 4000 and stack Node.js, the Matching Rule applied to the
six-record candidate store selects exactly record c-202, Maria Petrova. -/
theorem matching_rule_backend_input_selects_c202 :
    Option.map Prod.fst
      (matchRule candidate_db
        { role := "Backend Developer", experience_years := 4, budget := 4000
        , stack := ["Node.js"] }) =
    some { id := "c-202", full_name := "Maria Petrova"
         , email := "maria@devmail.com", role := "Backend Developer"
         , experience_years := 4, budget := 3500
         , stack := ["Node.js", "MongoDB", "Docker", "AWS"] } := by
  decide

/-- Claim C4: on the input with role DevOps Engineer, 6 years of experience,
budget 4000 and empty stack, no record of the six-record candidate store
satisfies both hard constraints (c-303 requires budget 4500, above 4000),
so the Matching Rule has no qualifying record. -/
theorem matching_rule_devops_no_qualifier :
    candidate_db.filter
        (qualifies { role := "DevOps Engineer", experience_years := 6
                   , budget := 4000, stack := [] }) = [] ∧
    qualifies { role := "DevOps Engineer", experience_years := 6
              , budget := 4000, stack := [] }
        { id := "c-303", full_name := "Oleg Smirnov"
        , email := "oleg.smirnov@devmail.com", role := "DevOps Engineer"
        , experience_years := 6, budget := 4500
        , stack := ["AWS", "Docker", "Kubernetes", "Terraform", "Ansible"] } = false ∧
    matchRule candidate_db
        { role := "DevOps Engineer", experience_years := 6
        , budget := 4000, stack := [] } = none := by
  refine ⟨by decide, by decide, by decide⟩

/-- Claim C9: the Matching Rule is deterministic: two runs on identical
input and an unmodified candidate store return the identical selected
record and the identical justification. -/
theorem matching_rule_deterministic (store store2 : List CandidateRecord)
    (inp inp2 : CandidateInput) (hs : store = store2) (hi : inp = inp2) :
    matchRule store inp = matchRule store2 inp2 := by
  rw [hs, hi]

theorem matching_rule_deterministic_witness :
    matchRule candidate_db
      { role := "Backend Developer", experience_years := 4, budget := 4000
      , stack := ["Node.js"] } =
    matchRule candidate_db
      { role := "Backend Developer", experience_years := 4, budget := 4000
      , stack := ["Node.js"] } :=
  matching_rule_deterministic candidate_db candidate_db _ _ rfl rfl

/-! ## Claims about input collection -/

/-- Claim C10: the operator stack input is split on commas with each piece
stripped, so the resulting stack list always has length equal to the number
of commas plus one and is never empty; an empty stack entry yields the
singleton list holding the empty string. -/
theorem stack_split_never_empty :
    (∀ s : List Char, (stackOf s).length = s.count ',' + 1 ∧ stackOf s ≠ []) ∧
    stackOf [] = [""] := by
  refine ⟨fun s => ⟨?_, ?_⟩, rfl⟩
  · simp [stackOf, pySplitComma_length s]
  · simpa [stackOf] using pySplitComma_ne_nil s

/-- Claim C5: a non-numeric budget (or experience) string raises a distinct
identifiable integer-conversion failure during input collection, before any
of the four pipeline steps executes (the attempted-step trace is empty). -/
theorem bad_numeric_input_aborts_before_steps (oracle : Oracle)
    (op : OperatorInput)
    (h : pyInt op.exp_inp = none ∨ pyInt op.budget_inp = none) :
    ∃ s, run_notebook oracle op = (.error (.valueError s), []) := by
  cases he : pyInt op.exp_inp with
  | none =>
    refine ⟨op.exp_inp, ?_⟩
    simp [run_notebook, candidate_input, he]
  | some e =>
    cases hb : pyInt op.budget_inp with
    | none =>
      refine ⟨op.budget_inp, ?_⟩
      simp [run_notebook, candidate_input, he, hb]
    | some b =>
      rcases h with h | h
      · simp [h] at he
      · simp [h] at hb

theorem bad_numeric_input_aborts_before_steps_witness :
    ∃ s, run_notebook (fun _ _ _ => .ok "")
        { role_inp := "Backend Developer".data, exp_inp := "4".data
        , budget_inp := "abc".data, stack_inp_raw := "Node.js".data } =
      (.error (.valueError s), []) :=
  bad_numeric_input_aborts_before_steps _ _ (Or.inr (by decide))

/-! ## Claims about the Pipeline Runner -/

/-- A total external call that always succeeds, returning the given text. -/
def successOracle
    (f : TaskDef → List (String × String) → Option (List CandidateRecord) → String) :
    Oracle :=
  fun t ctx d => .ok (f t ctx d)

/-- Claim C3: a run with no failures executes the four steps profile,
match, offer, send exactly once each, in declaration order, producing
exactly four step results, and each step receives as context exactly the
outputs of its declared dependencies: profile none, match the profile
output, offer the profile and match outputs, send the offer and match
outputs. -/
theorem crew_runs_four_steps_in_order
    (f : TaskDef → List (String × String) → Option (List CandidateRecord) → String)
    (st : NotebookState) :
    (runCrew (successOracle f) st).1 =
      .ok [ { step := "profile", output := f task_profile [] none, context := [] }
          , { step := "match"
            , output := f task_match [("profile", f task_profile [] none)]
                (some st.candidate_db)
            , context := [("profile", f task_profile [] none)] }
          , { step := "offer"
            , output := f task_offer
                [ ("profile", f task_profile [] none)
                , ("match", f task_match [("profile", f task_profile [] none)]
                    (some st.candidate_db)) ] none
            , context :=
                [ ("profile", f task_profile [] none)
                , ("match", f task_match [("profile", f task_profile [] none)]
                    (some st.candidate_db)) ] }
          , { step := "send"
            , output := f task_send
                [ ("offer", f task_offer
                    [ ("profile", f task_profile [] none)
                    , ("match", f task_match
                        [("profile", f task_profile [] none)]
                        (some st.candidate_db)) ] none)
                , ("match", f task_match [("profile", f task_profile [] none)]
                    (some st.candidate_db)) ] none
            , context :=
                [ ("offer", f task_offer
                    [ ("profile", f task_profile [] none)
                    , ("match", f task_match
                        [("profile", f task_profile [] none)]
                        (some st.candidate_db)) ] none)
                , ("match", f task_match [("profile", f task_profile [] none)]
                    (some st.candidate_db)) ] } ] ∧
    (runCrew (successOracle f) st).2.1 = ["profile", "match", "offer", "send"] := by
  exact ⟨rfl, rfl⟩

/-- Claim C6: the candidate store is never mutated during a run: the whole
sequential run leaves the notebook state, hence the store and every record
in it, unchanged, and the store is supplied as input_data to exactly the
matching step. -/
theorem candidate_store_never_mutated (oracle : Oracle) (st : NotebookState) :
    (runCrew oracle st).2.2 = st ∧
    crew_tasks.filter (fun t => t.has_input_data) = [task_match] :=
  ⟨runTasks_state_eq oracle crew_tasks [] st, rfl⟩

/-- Claim C7: no failure is caught or retried anywhere: an operator-input
conversion error aborts the run before any step, and when the pipeline
reaches a step whose external call fails, the whole run stops with exactly
that error, produces no step results, and attempts no later step. -/
theorem failures_abort_run :
    (∀ (oracle : Oracle) (op : OperatorInput) (e : RunError),
        candidate_input op = .error e →
        run_notebook oracle op = (.error e, [])) ∧
    (∀ (oracle : Oracle) (t : TaskDef) (ts : List TaskDef)
        (acc : List (String × String)) (st : NotebookState) (e : String),
        oracle t (taskContext t acc) (taskData t st) = .error e →
        runTasks oracle (t :: ts) acc st =
          (.error (.stepError e), [t.name], st)) := by
  constructor
  · intro oracle op e h
    simp [run_notebook, h]
  · intro oracle t ts acc st e h
    unfold runTasks
    simp [h]

theorem failures_abort_run_witness :
    runTasks (fun _ _ _ => .error "boom") crew_tasks []
        { candidate_db := candidate_db } =
      (.error (.stepError "boom"), ["profile"], { candidate_db := candidate_db }) :=
  failures_abort_run.2 (fun _ _ _ => .error "boom") task_profile
    [task_match, task_offer, task_send] [] { candidate_db := candidate_db }
    "boom" rfl

/-! ## Claim about the Result Presenter -/

/-- Claim C8 (refuted as stated): the display cell is meant to render the
fourth step output verbatim, but the variable it reads, final_status, is
bound by no notebook cell, so for every assignment of textual values to the
names the notebook does bind, the display cell raises a NameError instead
of rendering anything. -/
theorem display_cell_name_error (vals : String → String) :
    display_cell (envOf notebook_globals vals) =
      .error (.nameError "final_status") := by
  have h : "final_status" ∉ notebook_globals := by decide
  simp [display_cell, envOf, h]

end Recruitment
